import Mathlib

set_option linter.unusedVariables false

/-!
Verification development for the SentimentAnalysis repository.

The numeric computations of the program are embedded over `ℚ` (exact
rationals standing in for Python floats), lists stand in for pandas
DataFrames, and the external providers (Reddit search, Alpha Vantage,
News API) are modelled as environments whose calls may fail, mirroring
each `try`/`except` of the source.
-/

namespace SentimentAnalysis

/-! ## Weighted-score calculator
Embedding of `SentimentAnalyzer.calculate_weighted_sentiment`
(`src/sentiment_analysis/sentiment_analysis.py`, lines 49-86). -/

/-- One scored record (one DataFrame row): the columns the weighted
calculation reads are `source`, `positive` and `negative`. -/
structure ScoredRow where
  source : String
  positive : ℚ
  negative : ℚ
  deriving DecidableEq, Repr

/-- `df['source'].unique()`: the distinct values in first-occurrence order. -/
def uniqueKeep : List String → List String
  | [] => []
  | x :: xs => x :: (uniqueKeep xs).filter (fun y => y != x)

/-- `series.mean()`: the mean of a column over a list of rows. -/
def colMean (f : ScoredRow → ℚ) (rows : List ScoredRow) : ℚ :=
  (rows.map f).sum / (rows.length : ℚ)

/-- `df[df['source'] == source]`: the rows of one source group. -/
def groupRows (df : List ScoredRow) (s : String) : List ScoredRow :=
  df.filter (fun r => r.source == s)

/-- `source_df['positive'].mean() - source_df['negative'].mean()`. -/
def netSentiment (df : List ScoredRow) (s : String) : ℚ :=
  colMean (fun r => r.positive) (groupRows df s)
    - colMean (fun r => r.negative) (groupRows df s)

/-- `weights.get(source, 0.5)` with the table
`{'Financial News': 0.7, 'WallStreetBets': 0.3}`. -/
def sourceWeight (s : String) : ℚ :=
  if s = "Financial News" then 7/10
  else if s = "WallStreetBets" then 3/10
  else 1/2

/-- `SentimentAnalyzer.calculate_weighted_sentiment(df)`. -/
def calculate_weighted_sentiment (df : List ScoredRow) : ℚ :=
  if df.isEmpty then 0
  else
    let sources := uniqueKeep (df.map (fun r => r.source))
    let weighted_sum := (sources.map (fun s => netSentiment df s * sourceWeight s)).sum
    let total_weight := (sources.map sourceWeight).sum
    if 0 < total_weight then weighted_sum / total_weight else 0

/-- The spec's formulation of step 4 of §4.5: the index is
`Σ(net_s * weight_s) / Σ(weight_s)` over the set of source groups present
in the data, written as a `Finset` sum over the distinct sources. -/
def weightedIndexSpec (df : List ScoredRow) : ℚ :=
  let present := (df.map (fun r => r.source)).toFinset
  (present.sum (fun s => netSentiment df s * sourceWeight s))
    / (present.sum sourceWeight)

/-- Concrete two-source frame: one news row with net sentiment `0.6` and one
social row with net sentiment `-0.2`. -/
def exampleTwoSourceDf : List ScoredRow :=
  [ { source := "Financial News", positive := 8/10, negative := 2/10 },
    { source := "WallStreetBets", positive := 1/10, negative := 3/10 } ]

/-- Concrete news-only frame with net sentiment `0.4`. -/
def exampleNewsOnlyDf : List ScoredRow :=
  [ { source := "Financial News", positive := 7/10, negative := 3/10 } ]

/-! ## Social source adapter
Embedding of `WSBSentimentFetcher.fetch_wsb_posts`
(`src/backup_20250305/data_fetching/fetch_wsb_sentiment.py`, lines 34-150).
Upstream calls live in an environment whose `Except` errors model raised
exceptions; each `try`/`except` of the source becomes an explicit match. -/

/-- One raw Reddit submission as the praw client yields it. -/
structure RawPost where
  title : String
  selftext : String
  created_utc : Int
  score : Int
  num_comments : Nat
  permalink : String
  deriving DecidableEq, Repr

/-- One row of the DataFrame built by `fetch_wsb_posts` (lines 79-87). -/
structure PostEntry where
  text : String
  timestamp : Int
  score : Int
  num_comments : Nat
  url : String
  source : String
  ticker : String
  deriving DecidableEq, Repr

/-- Bool test that the first character list starts with the second. -/
def chrStarts : List Char → List Char → Bool
  | _, [] => true
  | [], _ :: _ => false
  | a :: as, b :: bs => a == b && chrStarts as bs

/-- Bool test that the second character list occurs inside the first. -/
def chrInside : List Char → List Char → Bool
  | [], needle => needle.isEmpty
  | a :: as, needle => chrStarts (a :: as) needle || chrInside as needle

/-- Python's `needle in hay` on strings: substring containment. -/
def strContains (hay needle : String) : Bool :=
  chrInside hay.toList needle.toList

/-- Python's `str.upper()` (character-wise upper-casing). -/
def strUpper (s : String) : String :=
  String.mk (s.toList.map Char.toUpper)

/-- The per-post filter of `fetch_wsb_posts` (lines 70-78): the post date
must lie in `[start_date, end_date]` and the upper-cased ticker must occur
in the upper-cased title or body. -/
def matchesPost (ticker : String) (startD endD : Int) (p : RawPost) : Bool :=
  (decide (startD ≤ p.created_utc) && decide (p.created_utc ≤ endD))
    && (strContains (strUpper p.title) (strUpper ticker)
        || strContains (strUpper p.selftext) (strUpper ticker))

/-- The dict appended for one accepted post (lines 79-87). -/
def toEntry (ticker : String) (p : RawPost) : PostEntry :=
  { text := p.title ++ " " ++ p.selftext,
    timestamp := p.created_utc,
    score := p.score,
    num_comments := p.num_comments,
    url := "https://www.reddit.com" ++ p.permalink,
    source := "WallStreetBets",
    ticker := ticker }

/-- Environment of one `fetch_wsb_posts` call: the praw client state and the
outcome of every upstream request. -/
structure WsbEnv where
  redditReady : Bool
  subredditOk : Bool
  search : String → Except String (List RawPost)
  hotPosts : Except String (List RawPost)
  newPosts : Except String (List RawPost)
  topPosts : Except String (List RawPost)
  now : Int

/-- The matching rows one upstream result contributes. -/
def procMatches (ticker : String) (startD endD : Int) (L : List RawPost) :
    List PostEntry :=
  (L.filter (matchesPost ticker startD endD)).map (toEntry ticker)

/-- One search or listing attempt: a raised error is caught and contributes
nothing (the `except ... continue` arms), a successful result appends its
matching posts. -/
def appendMatches (ticker : String) (startD endD : Int)
    (res : Except String (List RawPost)) (acc : List PostEntry) : List PostEntry :=
  match res with
  | .error _ => acc
  | .ok posts => acc ++ procMatches ticker startD endD posts

/-- The search loop over widening time filters (lines 63-98), stopping once
at least 50 posts have accumulated after a successful search. -/
def searchLoop (env : WsbEnv) (ticker : String) (startD endD : Int) :
    List String → List PostEntry → List PostEntry
  | [], acc => acc
  | tf :: rest, acc =>
    match env.search tf with
    | .error _ => searchLoop env ticker startD endD rest acc
    | .ok posts =>
      if 50 ≤ (acc ++ procMatches ticker startD endD posts).length then
        acc ++ procMatches ticker startD endD posts
      else searchLoop env ticker startD endD rest (acc ++ procMatches ticker startD endD posts)

/-- `WSBSentimentFetcher._fetch_from_listings` (lines 114-150): hot, new and
top posts are scanned with the same matching filter; errors skip a listing. -/
def listingsFallback (env : WsbEnv) (ticker : String) (startD endD : Int) :
    List PostEntry :=
  appendMatches ticker startD endD env.topPosts
    (appendMatches ticker startD endD env.newPosts
      (appendMatches ticker startD endD env.hotPosts []))

/-- Lines 56-108: the accumulated posts after the search phase, with the
listing fallback if search found nothing. -/
def wsbPosts (env : WsbEnv) (ticker : String) (startD endD : Int) :
    List PostEntry :=
  if (searchLoop env ticker startD endD ["day", "week", "month"] []).isEmpty then
    listingsFallback env ticker startD endD
  else searchLoop env ticker startD endD ["day", "week", "month"] []

/-- `WSBSentimentFetcher.fetch_wsb_posts` (lines 34-112). The `Except`
result records whether an exception would propagate to the caller: every
possibly-raising upstream call is matched inside one of the source's
handlers, so every arm is `.ok`. -/
def fetch_wsb_posts (env : WsbEnv) (ticker : String) (days : Int) :
    Except String (List PostEntry) :=
  if !env.redditReady then .ok []
  else if !env.subredditOk then .ok []
  else .ok (wsbPosts env ticker (env.now - days * 86400) env.now)

/-- Environment whose three searches return the given result lists and whose
listings are empty. -/
def threeSearchEnv (now : Int) (L1 L2 L3 : List RawPost) : WsbEnv :=
  { redditReady := true, subredditOk := true,
    search := fun tf =>
      if tf = "day" then .ok L1 else if tf = "week" then .ok L2 else .ok L3,
    hotPosts := .ok [], newPosts := .ok [], topPosts := .ok [],
    now := now }

/-- Concrete post mentioning AAPL, ten seconds before `now = 1000000`. -/
def aaplPost : RawPost :=
  { title := "AAPL to the moon", selftext := "", created_utc := 999990,
    score := 12, num_comments := 3,
    permalink := "/r/wallstreetbets/comments/abc" }

/-- Environment in which the day and week searches both return the same
post. -/
def dupSearchEnv : WsbEnv := threeSearchEnv 1000000 [aaplPost] [aaplPost] []

/-! ## Institutional source adapter
Embedding of `InstitutionalSentimentFetcher`
(`src/data_fetching/fetch_institutional_sentiment.py`). -/

/-- One processed news row; the `ticker` column is attached later by
`get_institutional_sentiment` (line 201). -/
structure Article where
  text : String
  timestamp : Int
  source : String
  publisher : String
  url : String
  ticker : String := ""
  deriving DecidableEq, Repr

/-- One item of the Alpha Vantage `feed`; `time_published = none` models an
item on which `strptime` would raise (the per-item handler skips it). -/
structure AvItem where
  title : String
  summary : String
  time_published : Option Int
  srcName : String
  url : String
  deriving DecidableEq, Repr

/-- Parsed JSON body of an Alpha Vantage response; `feed = none` models a
body with no `"feed"` key. -/
structure AvJson where
  feed : Option (List AvItem)

/-- HTTP response: status code plus the outcome of `response.json()`. -/
structure AvResponse where
  statusCode : Nat
  json : Except String AvJson

/-- Environment of one `fetch_alpha_vantage_news` call; `httpGet` is the
outcome of `requests.get`. -/
structure AvEnv where
  apiKey : Option String
  httpGet : Except String AvResponse
  now : Int

/-- The guard of line 39: `not self.alpha_vantage_key or
self.alpha_vantage_key == ""`. -/
def avKeyBad : Option String → Bool
  | none => true
  | some k => k == ""

/-- The per-item processing of lines 72-89: skip an item whose timestamp
fails to parse, keep an item inside the date window. -/
def processAvItem (startD endD : Int) (item : AvItem) : Option Article :=
  match item.time_published with
  | none => none
  | some ts =>
    if startD ≤ ts ∧ ts ≤ endD then
      some { text := item.title ++ " " ++ item.summary, timestamp := ts,
             source := "Financial News", publisher := item.srcName,
             url := item.url }
    else none

/-- Lines 50-92, the `try` block of `fetch_alpha_vantage_news`. Line 54
interpolates `data.keys()` whenever the status code is 200, before `data`
is assigned at line 63, so that path raises `UnboundLocalError`. The feed
processing below the raise is kept, though it is unreachable. -/
def avBody (env : AvEnv) (days : Int) : Except String (List Article) :=
  match env.httpGet with
  | .error e => .error e
  | .ok resp =>
    if resp.statusCode == 200 then
      .error "UnboundLocalError: local variable data referenced before assignment"
    else if resp.statusCode != 200 then .ok []
    else
      match resp.json with
      | .error e => .error e
      | .ok data =>
        match data.feed with
        | none => .ok []
        | some feed =>
          .ok (feed.filterMap (processAvItem (env.now - days * 86400) env.now))

/-- `InstitutionalSentimentFetcher.fetch_alpha_vantage_news` (lines 32-96):
the missing-key guard, the `try` body, and the handler of line 94 that
turns any raised error into an empty frame. -/
def fetch_alpha_vantage_news (env : AvEnv) (ticker : String) (days : Int) :
    Except String (List Article) :=
  if avKeyBad env.apiKey then .ok []
  else
    match avBody env days with
    | .ok v => .ok v
    | .error _ => .ok []

/-- One raw article of the News API response. -/
structure NewsArticleRaw where
  title : String
  description : String
  publishedAt : Int
  srcName : String
  url : String
  deriving DecidableEq, Repr

/-- Parsed JSON body of a News API response: `data.get('articles', [])`
(a missing key is the empty list). -/
structure NewsJson where
  articles : List NewsArticleRaw

/-- HTTP response of the News API request. -/
structure NewsResponse where
  statusCode : Nat
  json : Except String NewsJson

/-- Environment of one `fetch_news_api` call. -/
structure NewsEnv where
  newsApiKey : Option String
  httpGet : Except String NewsResponse
  now : Int

/-- The guard of line 104: `not self.news_api_key or
self.news_api_key == "your_news_api_key"`. -/
def newsKeyBad : Option String → Bool
  | none => true
  | some k => k == "" || k == "your_news_api_key"

/-- `get_company_name` (lines 157-170). -/
def get_company_name (ticker : String) : String :=
  if ticker = "AAPL" then "Apple"
  else if ticker = "NVDA" then "NVIDIA"
  else if ticker = "MSFT" then "Microsoft"
  else if ticker = "TSLA" then "Tesla"
  else if ticker = "AMZN" then "Amazon"
  else if ticker = "GOOGL" then "Google"
  else if ticker = "META" then "Meta"
  else if ticker = "NFLX" then "Netflix"
  else ticker

/-- The row built from one News API article (lines 143-149). -/
def fromNewsArticle (a : NewsArticleRaw) : Article :=
  { text := a.title ++ " " ++ a.description, timestamp := a.publishedAt,
    source := "Financial News", publisher := a.srcName, url := a.url }

/-- Lines 123-151, the `try` block of `fetch_news_api`. -/
def newsBody (env : NewsEnv) : Except String (List Article) :=
  match env.httpGet with
  | .error e => .error e
  | .ok resp =>
    if resp.statusCode != 200 then .ok []
    else
      match resp.json with
      | .error e => .error e
      | .ok data =>
        if data.articles.isEmpty then .ok []
        else .ok (data.articles.map fromNewsArticle)

/-- `InstitutionalSentimentFetcher.fetch_news_api` (lines 98-155). The
requested window and the ticker only parameterize the upstream query
(through the environment); no local ticker-presence or timestamp filter is
applied to the returned articles. -/
def fetch_news_api (env : NewsEnv) (ticker : String) (days : Int) :
    Except String (List Article) :=
  if newsKeyBad env.newsApiKey then .ok []
  else
    match newsBody env with
    | .ok v => .ok v
    | .error _ => .ok []

/-- Environment of one `get_institutional_sentiment` call. -/
structure InstEnv where
  av : AvEnv
  news : NewsEnv

/-- `InstitutionalSentimentFetcher.get_institutional_sentiment`
(lines 172-201): source selection and combination, with the ticker column
attached to the combined frame. The attachment of sentiment columns
(lines 203-207) goes through the external classifier and leaves the records
themselves unchanged, so it is outside this embedding. -/
def get_institutional_sentiment (env : InstEnv) (ticker : String) (days : Int) :
    Except String (List Article) :=
  match fetch_alpha_vantage_news env.av ticker days with
  | .error e => .error e
  | .ok alphaDf =>
    match (if alphaDf.isEmpty then fetch_news_api env.news ticker days
           else .ok []) with
    | .error e => .error e
    | .ok newsDf =>
      let dfs := (if alphaDf.isEmpty then [] else [alphaDf])
                  ++ (if newsDf.isEmpty then [] else [newsDf])
      if dfs.isEmpty then .ok []
      else
        let combined := dfs.foldl (fun acc df => acc ++ df) []
        .ok (combined.map (fun a => { a with ticker := ticker }))

/-- Concrete News API article that never mentions AAPL. -/
def offTopicArticle : NewsArticleRaw :=
  { title := "Weather update", description := "Sunny skies expected",
    publishedAt := 999000, srcName := "SomePaper",
    url := "https://news.example/1" }

/-- News API environment returning the off-topic article with status 200. -/
def newsEnvOffTopic : NewsEnv :=
  { newsApiKey := some "k123",
    httpGet := .ok { statusCode := 200, json := .ok { articles := [offTopicArticle] } },
    now := 1000000 }

/-- Concrete News API article published far before the lookback window. -/
def staleArticle : NewsArticleRaw :=
  { title := "AAPL results", description := "Apple earnings recap",
    publishedAt := 100, srcName := "OldPaper",
    url := "https://news.example/2" }

/-- News API environment returning the stale article with status 200. -/
def newsEnvStale : NewsEnv :=
  { newsApiKey := some "k123",
    httpGet := .ok { statusCode := 200, json := .ok { articles := [staleArticle] } },
    now := 1000000 }

/-- Alpha Vantage environment with no API key configured. -/
def avEnvNoKey : AvEnv :=
  { apiKey := none, httpGet := .error "no request made", now := 1000000 }

/-- Concrete News API article mentioning AAPL. -/
def aaplArticle : NewsArticleRaw :=
  { title := "AAPL beats expectations", description := "Apple quarterly earnings",
    publishedAt := 999500, srcName := "FinPaper",
    url := "https://news.example/3" }

/-- News API environment returning the AAPL article with status 200. -/
def newsEnvAapl : NewsEnv :=
  { newsApiKey := some "key",
    httpGet := .ok { statusCode := 200, json := .ok { articles := [aaplArticle] } },
    now := 1000000 }

/-- Institutional environment: Alpha Vantage without key, News API with one
AAPL article. -/
def instEnvExample : InstEnv :=
  { av := avEnvNoKey, news := newsEnvAapl }

/-- Reddit environment whose client failed to come up. -/
def noRedditEnv : WsbEnv :=
  { redditReady := false, subredditOk := false,
    search := fun _ => .error "client down",
    hotPosts := .error "client down", newPosts := .error "client down",
    topPosts := .error "client down", now := 0 }

/-- News API environment with no API key configured. -/
def newsEnvNoKey : NewsEnv :=
  { newsApiKey := none, httpGet := .error "no request made", now := 0 }

/-- News API environment whose request raises a network error. -/
def newsEnvNetErr (k err : String) (now : Int) : NewsEnv :=
  { newsApiKey := some k, httpGet := .error err, now := now }

/-- News API environment whose 200 response fails to parse as JSON. -/
def newsEnvBadJson (k err : String) (now : Int) : NewsEnv :=
  { newsApiKey := some k,
    httpGet := .ok { statusCode := 200, json := .error err },
    now := now }

/-! ## Aggregator
Embedding of the combination step of `fetch_all_sentiment_data`
(`src/main.py`, lines 49-66). -/

/-- One DataFrame row, an association list from column name to cell. -/
abbrev Row : Type := List (String × String)

/-- A DataFrame: a column list plus rows keyed by column name. -/
structure DataFrame where
  cols : List String
  rows : List Row

/-- `df[common_cols]` on one row: project onto the given columns. -/
def projRow (cs : List String) (r : Row) : Row :=
  cs.map (fun c => (c, (List.lookup c r).getD ""))

/-- The `source` cell of a row. -/
def rowSource (r : Row) : String :=
  (List.lookup "source" r).getD ""

/-- The combination step of `fetch_all_sentiment_data` (lines 49-66): if
both frames are non-empty, project each onto the common column set and
concatenate; if one is empty, pass the other through; if both are empty,
the result is the empty frame. -/
def mergeFrames (wsb inst : DataFrame) : DataFrame :=
  if !wsb.rows.isEmpty && !inst.rows.isEmpty then
    let common := wsb.cols.filter (fun c => c ∈ inst.cols)
    { cols := common,
      rows := wsb.rows.map (projRow common) ++ inst.rows.map (projRow common) }
  else if !wsb.rows.isEmpty then wsb
  else if !inst.rows.isEmpty then inst
  else { cols := [], rows := [] }

/-- Concrete social frame with one row. -/
def wsbFrameExample : DataFrame :=
  { cols := ["text", "source", "score"],
    rows := [[("text", "AAPL yolo"), ("source", "WallStreetBets"), ("score", "12")]] }

/-- Concrete news frame with one row. -/
def instFrameExample : DataFrame :=
  { cols := ["text", "source", "publisher"],
    rows := [[("text", "AAPL earnings"), ("source", "Financial News"),
              ("publisher", "FinPaper")]] }

theorem mem_uniqueKeep (a : String) : ∀ l : List String, a ∈ uniqueKeep l ↔ a ∈ l := by
  intro l
  induction l with
  | nil => simp [uniqueKeep]
  | cons x xs ih =>
    simp only [uniqueKeep, List.mem_cons, List.mem_filter, bne_iff_ne, ne_eq, ih]
    by_cases hax : a = x
    · simp [hax]
    · simp [hax, ih]

theorem nodup_uniqueKeep : ∀ l : List String, (uniqueKeep l).Nodup := by
  intro l
  induction l with
  | nil => simp [uniqueKeep]
  | cons x xs ih =>
    simp only [uniqueKeep, List.nodup_cons]
    constructor
    · intro hmem
      have := (List.mem_filter.mp hmem).2
      simp at this
    · exact ih.filter _

theorem toFinset_uniqueKeep (l : List String) :
    (uniqueKeep l).toFinset = l.toFinset := by
  ext a
  simp [List.mem_toFinset, mem_uniqueKeep]

theorem uniqueKeep_ne_nil {l : List String} (h : l ≠ []) : uniqueKeep l ≠ [] := by
  cases l with
  | nil => exact absurd rfl h
  | cons x xs => simp [uniqueKeep]

theorem sourceWeight_pos (s : String) : 0 < sourceWeight s := by
  unfold sourceWeight
  split
  · norm_num
  · split <;> norm_num

theorem colMean_nonneg (f : ScoredRow → ℚ) (rows : List ScoredRow)
    (hb : ∀ r ∈ rows, 0 ≤ f r) : 0 ≤ colMean f rows := by
  unfold colMean
  apply div_nonneg
  · exact List.sum_nonneg (by simpa using hb)
  · positivity

theorem colMean_le_one (f : ScoredRow → ℚ) (rows : List ScoredRow)
    (hb : ∀ r ∈ rows, f r ≤ 1) : colMean f rows ≤ 1 := by
  unfold colMean
  by_cases hnil : rows = []
  · simp [hnil]
  · have hlen : (0 : ℚ) < rows.length := by
      have : 0 < rows.length := List.length_pos.mpr hnil
      exact_mod_cast this
    rw [div_le_one hlen]
    calc (rows.map f).sum ≤ (rows.map (fun _ => (1 : ℚ))).sum := by
          apply List.sum_le_sum
          exact hb
      _ = rows.length := by simp

theorem groupRows_ne_nil {df : List ScoredRow} {s : String}
    (h : s ∈ df.map (fun r => r.source)) : groupRows df s ≠ [] := by
  rcases List.mem_map.mp h with ⟨r, hr, hrs⟩
  have : r ∈ groupRows df s := by
    unfold groupRows
    exact List.mem_filter.mpr ⟨hr, by simp [hrs]⟩
  intro hnil
  rw [hnil] at this
  exact absurd this (List.not_mem_nil r)

theorem netSentiment_bounds {df : List ScoredRow} (s : String)
    (hb : ∀ r ∈ df, 0 ≤ r.positive ∧ r.positive ≤ 1 ∧ 0 ≤ r.negative ∧ r.negative ≤ 1) :
    -1 ≤ netSentiment df s ∧ netSentiment df s ≤ 1 := by
  have hgb : ∀ r ∈ groupRows df s,
      0 ≤ r.positive ∧ r.positive ≤ 1 ∧ 0 ≤ r.negative ∧ r.negative ≤ 1 := by
    intro r hr
    exact hb r (List.mem_of_mem_filter hr)
  have hp0 : 0 ≤ colMean (fun r => r.positive) (groupRows df s) :=
    colMean_nonneg _ _ (fun r hr => (hgb r hr).1)
  have hp1 : colMean (fun r => r.positive) (groupRows df s) ≤ 1 :=
    colMean_le_one _ _ (fun r hr => (hgb r hr).2.1)
  have hn0 : 0 ≤ colMean (fun r => r.negative) (groupRows df s) :=
    colMean_nonneg _ _ (fun r hr => (hgb r hr).2.2.1)
  have hn1 : colMean (fun r => r.negative) (groupRows df s) ≤ 1 :=
    colMean_le_one _ _ (fun r hr => (hgb r hr).2.2.2)
  unfold netSentiment
  constructor <;> linarith

theorem sum_map_neg (l : List String) (g : String → ℚ) :
    (l.map (fun x => -(g x))).sum = -((l.map g).sum) := by
  induction l with
  | nil => simp
  | cons x xs ih => simp [ih]; ring

theorem sum_uniqueKeep_eq_toFinset (l : List String) (f : String → ℚ) :
    ((uniqueKeep l).map f).sum = l.toFinset.sum f := by
  rw [← List.sum_toFinset f (nodup_uniqueKeep l), toFinset_uniqueKeep]

theorem total_weight_pos (df : List ScoredRow) (hne : df ≠ []) :
    0 < ((uniqueKeep (df.map (fun r => r.source))).map sourceWeight).sum := by
  have hmapne : df.map (fun r => r.source) ≠ [] := by simpa using hne
  have hsrcne := uniqueKeep_ne_nil hmapne
  apply List.sum_pos
  · intro x hx
    rcases List.mem_map.mp hx with ⟨s, _, rfl⟩
    exact sourceWeight_pos s
  · simpa using hsrcne

theorem calc_eq_div (df : List ScoredRow) (hne : df ≠ []) :
    calculate_weighted_sentiment df
      = ((uniqueKeep (df.map (fun r => r.source))).map
          (fun s => netSentiment df s * sourceWeight s)).sum
        / ((uniqueKeep (df.map (fun r => r.source))).map sourceWeight).sum := by
  have hP := total_weight_pos df hne
  cases df with
  | nil => exact absurd rfl hne
  | cons a l =>
    simp only [calculate_weighted_sentiment, List.isEmpty_cons, Bool.false_eq_true,
      if_false]
    rw [if_pos hP]

theorem uniqueKeep_const {s : String} :
    ∀ l : List String, l ≠ [] → (∀ x ∈ l, x = s) → uniqueKeep l = [s] := by
  intro l
  induction l with
  | nil => intro h _; exact absurd rfl h
  | cons x xs _ =>
    intro _ hall
    have hx : x = s := hall x (List.mem_cons_self x xs)
    subst hx
    have hfil : (uniqueKeep xs).filter (fun y => y != x) = [] := by
      apply List.filter_eq_nil_iff.mpr
      intro a ha
      have hmem : a ∈ xs := (mem_uniqueKeep a xs).mp ha
      have := hall a (List.mem_cons_of_mem _ hmem)
      simp [this]
    simp [uniqueKeep, hfil]

/-- C1: for every record collection whose records carry a source tag and
positive/negative values in `[0,1]`, the overall weighted index of
`calculate_weighted_sentiment` equals `Σ(net_s * w_s) / Σ(w_s)` over the set
of source groups present in the data (the spec-side `weightedIndexSpec`),
with weight `0.7` for `"Financial News"`, `0.3` for `"WallStreetBets"` and
`0.5` for any other source; the witness evaluates the two-group example with
news net `0.6` and social net `-0.2` to exactly `0.36`. -/
theorem claim_C1 (df : List ScoredRow)
    (_hb : ∀ r ∈ df, 0 ≤ r.positive ∧ r.positive ≤ 1 ∧ 0 ≤ r.negative ∧ r.negative ≤ 1) :
    calculate_weighted_sentiment df = weightedIndexSpec df
      ∧ sourceWeight "Financial News" = 7/10
      ∧ sourceWeight "WallStreetBets" = 3/10
      ∧ (∀ s, s ≠ "Financial News" → s ≠ "WallStreetBets" → sourceWeight s = 1/2) := by
  refine ⟨?_, by simp [sourceWeight], by simp [sourceWeight], ?_⟩
  · by_cases hne : df = []
    · subst hne
      simp [calculate_weighted_sentiment, weightedIndexSpec]
    · rw [calc_eq_div df hne]
      simp only [weightedIndexSpec]
      rw [sum_uniqueKeep_eq_toFinset, sum_uniqueKeep_eq_toFinset]
  · intro s h1 h2
    simp [sourceWeight, h1, h2]

/-- Witness for C1: the concrete two-group frame (news net `0.6`, social net
`-0.2`) satisfies the formula and yields exactly `0.36 = 9/25`. -/
theorem claim_C1_witness :
    calculate_weighted_sentiment exampleTwoSourceDf = weightedIndexSpec exampleTwoSourceDf
      ∧ calculate_weighted_sentiment exampleTwoSourceDf = 9/25 := by
  constructor
  · exact (claim_C1 exampleTwoSourceDf (by
      intro r hr
      simp only [exampleTwoSourceDf, List.mem_cons, List.not_mem_nil, or_false] at hr
      rcases hr with h | h <;> subst h <;> norm_num)).1
  · simp [calculate_weighted_sentiment, exampleTwoSourceDf, uniqueKeep,
      netSentiment, colMean, groupRows, sourceWeight, List.filter_cons]
    norm_num

/-- C2: for every non-empty record collection whose per-record positive and
negative values lie in `[0,1]`, the weighted index returned by
`calculate_weighted_sentiment` lies in `[-1, 1]`. -/
theorem claim_C2 (df : List ScoredRow) (hne : df ≠ [])
    (hb : ∀ r ∈ df, 0 ≤ r.positive ∧ r.positive ≤ 1 ∧ 0 ≤ r.negative ∧ r.negative ≤ 1) :
    -1 ≤ calculate_weighted_sentiment df ∧ calculate_weighted_sentiment df ≤ 1 := by
  rw [calc_eq_div df hne]
  have hTpos := total_weight_pos df hne
  set srcs := uniqueKeep (df.map (fun r => r.source)) with hsrcs
  have hupper : (srcs.map (fun s => netSentiment df s * sourceWeight s)).sum
      ≤ (srcs.map sourceWeight).sum := by
    apply List.sum_le_sum
    intro s _
    exact mul_le_of_le_one_left (le_of_lt (sourceWeight_pos s)) (netSentiment_bounds s hb).2
  have hlower : -((srcs.map sourceWeight).sum)
      ≤ (srcs.map (fun s => netSentiment df s * sourceWeight s)).sum := by
    rw [← sum_map_neg]
    apply List.sum_le_sum
    intro s _
    have h1 := (netSentiment_bounds s hb).1
    have h2 := sourceWeight_pos s
    nlinarith
  constructor
  · rw [le_div_iff₀ hTpos]
    linarith
  · rw [div_le_one hTpos]
    exact hupper

/-- Witness for C2: the index of the concrete two-source frame lies in
`[-1, 1]`. -/
theorem claim_C2_witness :
    exampleTwoSourceDf ≠ []
      ∧ (-1 ≤ calculate_weighted_sentiment exampleTwoSourceDf
          ∧ calculate_weighted_sentiment exampleTwoSourceDf ≤ 1) :=
  ⟨by simp [exampleTwoSourceDf],
    claim_C2 exampleTwoSourceDf (by simp [exampleTwoSourceDf]) (by
      intro r hr
      simp only [exampleTwoSourceDf, List.mem_cons, List.not_mem_nil, or_false] at hr
      rcases hr with h | h <;> subst h <;> norm_num)⟩

/-- C7: for every non-empty record collection in which all records share a
single source tag `s`, the overall weighted index equals `net_s` exactly:
the per-source weight cancels because the weights renormalize over only the
sources present. -/
theorem claim_C7 (df : List ScoredRow) (s : String) (hne : df ≠ [])
    (hall : ∀ r ∈ df, r.source = s) :
    calculate_weighted_sentiment df = netSentiment df s := by
  rw [calc_eq_div df hne]
  have hmap : ∀ x ∈ df.map (fun r => r.source), x = s := by
    intro x hx
    rcases List.mem_map.mp hx with ⟨r, hr, rfl⟩
    exact hall r hr
  have hmapne : df.map (fun r => r.source) ≠ [] := by simpa using hne
  rw [uniqueKeep_const _ hmapne hmap]
  simp only [List.map_cons, List.map_nil, List.sum_cons, List.sum_nil, add_zero]
  rw [mul_div_assoc, div_self (ne_of_gt (sourceWeight_pos s)), mul_one]

/-- Witness for C7: a news-only frame with net sentiment `0.4` yields an
overall index of exactly `0.4`. -/
theorem claim_C7_witness :
    calculate_weighted_sentiment exampleNewsOnlyDf
        = netSentiment exampleNewsOnlyDf "Financial News"
      ∧ netSentiment exampleNewsOnlyDf "Financial News" = 2/5 :=
  ⟨claim_C7 exampleNewsOnlyDf "Financial News" (by simp [exampleNewsOnlyDf]) (by
      intro r hr
      simp only [exampleNewsOnlyDf, List.mem_cons, List.not_mem_nil, or_false] at hr
      subst hr
      rfl),
    by
      simp [exampleNewsOnlyDf, netSentiment, colMean, groupRows, List.filter_cons]
      norm_num⟩

/-- C8: applied to an empty record collection, `calculate_weighted_sentiment`
returns exactly `0.0` (the empty case is an explicit neutral result, not a
fault). -/
theorem claim_C8 : calculate_weighted_sentiment [] = 0 := by
  simp [calculate_weighted_sentiment]

theorem searchLoop_nil (env : WsbEnv) (t : String) (sD eD : Int)
    (acc : List PostEntry) : searchLoop env t sD eD [] acc = acc := rfl

theorem searchLoop_cons_err (env : WsbEnv) (t : String) (sD eD : Int)
    (tf : String) (rest : List String) (acc : List PostEntry) (err : String)
    (h : env.search tf = .error err) :
    searchLoop env t sD eD (tf :: rest) acc = searchLoop env t sD eD rest acc := by
  show (match env.search tf with
        | .error _ => searchLoop env t sD eD rest acc
        | .ok posts =>
          if 50 ≤ (acc ++ procMatches t sD eD posts).length then
            acc ++ procMatches t sD eD posts
          else searchLoop env t sD eD rest (acc ++ procMatches t sD eD posts))
      = searchLoop env t sD eD rest acc
  rw [h]

theorem searchLoop_cons_ok (env : WsbEnv) (t : String) (sD eD : Int)
    (tf : String) (rest : List String) (acc : List PostEntry)
    (posts : List RawPost) (h : env.search tf = .ok posts) :
    searchLoop env t sD eD (tf :: rest) acc
      = if 50 ≤ (acc ++ procMatches t sD eD posts).length then
          acc ++ procMatches t sD eD posts
        else searchLoop env t sD eD rest (acc ++ procMatches t sD eD posts) := by
  show (match env.search tf with
        | .error _ => searchLoop env t sD eD rest acc
        | .ok posts =>
          if 50 ≤ (acc ++ procMatches t sD eD posts).length then
            acc ++ procMatches t sD eD posts
          else searchLoop env t sD eD rest (acc ++ procMatches t sD eD posts))
      = if 50 ≤ (acc ++ procMatches t sD eD posts).length then
          acc ++ procMatches t sD eD posts
        else searchLoop env t sD eD rest (acc ++ procMatches t sD eD posts)
  rw [h]

theorem mem_procMatches {t : String} {sD eD : Int} {L : List RawPost}
    {e : PostEntry} (h : e ∈ procMatches t sD eD L) :
    ∃ p, matchesPost t sD eD p = true ∧ e = toEntry t p := by
  unfold procMatches at h
  rcases List.mem_map.mp h with ⟨p, hp, rfl⟩
  exact ⟨p, (List.mem_filter.mp hp).2, rfl⟩

theorem mem_appendMatches {t : String} {sD eD : Int}
    {res : Except String (List RawPost)} {acc : List PostEntry} {e : PostEntry}
    (h : e ∈ appendMatches t sD eD res acc) :
    e ∈ acc ∨ ∃ p, matchesPost t sD eD p = true ∧ e = toEntry t p := by
  unfold appendMatches at h
  cases res with
  | error _ => exact Or.inl h
  | ok posts =>
    rcases List.mem_append.mp h with h | h
    · exact Or.inl h
    · exact Or.inr (mem_procMatches h)

theorem mem_searchLoop {env : WsbEnv} {t : String} {sD eD : Int} {e : PostEntry} :
    ∀ (fs : List String) (acc : List PostEntry),
      e ∈ searchLoop env t sD eD fs acc →
      e ∈ acc ∨ ∃ p, matchesPost t sD eD p = true ∧ e = toEntry t p := by
  intro fs
  induction fs with
  | nil => intro acc h; exact Or.inl h
  | cons tf rest ih =>
    intro acc h
    cases hs : env.search tf with
    | error err =>
      rw [searchLoop_cons_err env t sD eD tf rest acc err hs] at h
      exact ih acc h
    | ok posts =>
      rw [searchLoop_cons_ok env t sD eD tf rest acc posts hs] at h
      by_cases hlen : 50 ≤ (acc ++ procMatches t sD eD posts).length
      · rw [if_pos hlen] at h
        rcases List.mem_append.mp h with h | h
        · exact Or.inl h
        · exact Or.inr (mem_procMatches h)
      · rw [if_neg hlen] at h
        rcases ih _ h with h | h
        · rcases List.mem_append.mp h with h | h
          · exact Or.inl h
          · exact Or.inr (mem_procMatches h)
        · exact Or.inr h

theorem mem_listingsFallback {env : WsbEnv} {t : String} {sD eD : Int}
    {e : PostEntry} (h : e ∈ listingsFallback env t sD eD) :
    ∃ p, matchesPost t sD eD p = true ∧ e = toEntry t p := by
  unfold listingsFallback at h
  rcases mem_appendMatches h with h | hp
  · rcases mem_appendMatches h with h | hp
    · rcases mem_appendMatches h with h | hp
      · exact absurd h (List.not_mem_nil e)
      · exact hp
    · exact hp
  · exact hp

theorem wsb_provenance (env : WsbEnv) (t : String) (d : Int)
    (res : List PostEntry) (h : fetch_wsb_posts env t d = .ok res) :
    ∀ e ∈ res, ∃ p,
      matchesPost t (env.now - d * 86400) env.now p = true ∧ e = toEntry t p := by
  intro e he
  unfold fetch_wsb_posts at h
  cases h1 : env.redditReady with
  | false =>
    rw [h1] at h
    simp only [Bool.not_false, if_true, Except.ok.injEq] at h
    subst h
    exact absurd he (List.not_mem_nil e)
  | true =>
    rw [h1] at h
    cases h2 : env.subredditOk with
    | false =>
      rw [h2] at h
      simp only [Bool.not_true, Bool.not_false, Bool.false_eq_true, if_false,
        if_true, Except.ok.injEq] at h
      subst h
      exact absurd he (List.not_mem_nil e)
    | true =>
      rw [h2] at h
      simp only [Bool.not_true, Bool.false_eq_true, if_false, Except.ok.injEq] at h
      subst h
      unfold wsbPosts at he
      by_cases h3 : (searchLoop env t (env.now - d * 86400) env.now
          ["day", "week", "month"] []).isEmpty = true
      · rw [if_pos h3] at he
        exact mem_listingsFallback he
      · rw [if_neg h3] at he
        rcases mem_searchLoop _ _ he with h4 | h4
        · exact absurd h4 (List.not_mem_nil e)
        · exact h4

theorem fetch_wsb_never_fails (env : WsbEnv) (t : String) (d : Int) :
    ∃ r, fetch_wsb_posts env t d = .ok r := by
  unfold fetch_wsb_posts
  cases h1 : env.redditReady with
  | false => exact ⟨[], by simp⟩
  | true =>
    cases h2 : env.subredditOk with
    | false => exact ⟨[], by simp⟩
    | true => exact ⟨wsbPosts env t (env.now - d * 86400) env.now, by simp⟩

theorem avBody_cases (env : AvEnv) (days : Int) :
    avBody env days = .ok [] ∨ ∃ e, avBody env days = .error e := by
  unfold avBody
  cases env.httpGet with
  | error e => exact Or.inr ⟨e, rfl⟩
  | ok resp =>
    dsimp only
    by_cases hs : resp.statusCode = 200
    · have hb : (resp.statusCode == 200) = true := by simp [hs]
      rw [if_pos hb]
      exact Or.inr ⟨_, rfl⟩
    · have hb : (resp.statusCode == 200) = false := by simp [hs]
      rw [if_neg (by simp [hb])]
      have hb2 : (resp.statusCode != 200) = true := by simp [hs]
      rw [if_pos hb2]
      exact Or.inl rfl

theorem fetch_av_eq_empty (env : AvEnv) (t : String) (d : Int) :
    fetch_alpha_vantage_news env t d = .ok [] := by
  unfold fetch_alpha_vantage_news
  by_cases hk : avKeyBad env.apiKey = true
  · rw [if_pos hk]
  · rw [if_neg hk]
    rcases avBody_cases env d with h | ⟨e, h⟩
    · rw [h]
    · rw [h]

theorem fetch_news_never_fails (env : NewsEnv) (t : String) (d : Int) :
    ∃ r, fetch_news_api env t d = .ok r := by
  unfold fetch_news_api
  by_cases hk : newsKeyBad env.newsApiKey = true
  · exact ⟨[], by rw [if_pos hk]⟩
  · rw [if_neg hk]
    cases hb : newsBody env with
    | ok v => exact ⟨v, rfl⟩
    | error e => exact ⟨[], rfl⟩

/-- C3 counterexample: in an environment where the day and week searches
both return the same in-window post mentioning the ticker, the fetch output
contains the identical row twice, with equal `url` values. -/
theorem claim_C3_counterexample :
    ∃ l, fetch_wsb_posts dupSearchEnv "AAPL" 7 = .ok l
      ∧ ¬ (l.map (fun e => e.url)).Nodup :=
  ⟨[toEntry "AAPL" aaplPost, toEntry "AAPL" aaplPost], by rfl, by decide⟩

/-- C3 (amended): `fetch_wsb_posts` performs no deduplication. While fewer
than 50 posts have accumulated, each successive time-filter search appends
its matching posts independently, so the output is the concatenation of the
per-filter matches and a post returned by several searches appears once per
search. -/
theorem claim_C3_amended (now : Int) (t : String) (days : Int)
    (L1 L2 L3 : List RawPost)
    (h1 : (procMatches t (now - days * 86400) now L1).length < 50)
    (h2 : (procMatches t (now - days * 86400) now L1).length
          + (procMatches t (now - days * 86400) now L2).length < 50)
    (h3 : procMatches t (now - days * 86400) now L1 ≠ []) :
    fetch_wsb_posts (threeSearchEnv now L1 L2 L3) t days
      = .ok (procMatches t (now - days * 86400) now L1
          ++ procMatches t (now - days * 86400) now L2
          ++ procMatches t (now - days * 86400) now L3) := by
  have e1 : (threeSearchEnv now L1 L2 L3).search "day" = .ok L1 := rfl
  have e2 : (threeSearchEnv now L1 L2 L3).search "week" = .ok L2 := rfl
  have e3 : (threeSearchEnv now L1 L2 L3).search "month" = .ok L3 := rfl
  have hloop :
      searchLoop (threeSearchEnv now L1 L2 L3) t (now - days * 86400) now
        ["day", "week", "month"] []
      = (procMatches t (now - days * 86400) now L1
          ++ procMatches t (now - days * 86400) now L2)
        ++ procMatches t (now - days * 86400) now L3 := by
    rw [searchLoop_cons_ok (threeSearchEnv now L1 L2 L3) t (now - days * 86400)
        now "day" ["week", "month"] [] L1 e1]
    rw [List.nil_append]
    rw [if_neg (by omega)]
    rw [searchLoop_cons_ok (threeSearchEnv now L1 L2 L3) t (now - days * 86400)
        now "week" ["month"] (procMatches t (now - days * 86400) now L1) L2 e2]
    rw [if_neg (by rw [List.length_append]; omega)]
    rw [searchLoop_cons_ok (threeSearchEnv now L1 L2 L3) t (now - days * 86400)
        now "month" []
        (procMatches t (now - days * 86400) now L1
          ++ procMatches t (now - days * 86400) now L2) L3 e3]
    rw [searchLoop_nil]
    rw [ite_self]
  have hmain : fetch_wsb_posts (threeSearchEnv now L1 L2 L3) t days
      = .ok (wsbPosts (threeSearchEnv now L1 L2 L3) t (now - days * 86400) now) := rfl
  rw [hmain]
  unfold wsbPosts
  rw [hloop]
  have hne2 : (procMatches t (now - days * 86400) now L1
        ++ procMatches t (now - days * 86400) now L2)
      ++ procMatches t (now - days * 86400) now L3 ≠ [] := by
    intro hcontra
    exact h3 (List.append_eq_nil.mp (List.append_eq_nil.mp hcontra).1).1
  rw [if_neg (by simp only [List.isEmpty_iff]; exact hne2)]

/-- Witness for the amended C3: the duplicate-search environment yields the
same matching post once from the day search and once from the week search. -/
theorem claim_C3_amended_witness :
    fetch_wsb_posts dupSearchEnv "AAPL" 7
      = .ok (procMatches "AAPL" (1000000 - 7 * 86400) 1000000 [aaplPost]
          ++ procMatches "AAPL" (1000000 - 7 * 86400) 1000000 [aaplPost]
          ++ procMatches "AAPL" (1000000 - 7 * 86400) 1000000 []) :=
  claim_C3_amended 1000000 "AAPL" 7 [aaplPost] [aaplPost] []
    (by decide) (by decide) (by decide)

/-- C4 counterexample: `fetch_news_api` returns an article whose text never
mentions the queried ticker, so the claim fails for that adapter. -/
theorem claim_C4_counterexample :
    ∃ l, fetch_news_api newsEnvOffTopic "AAPL" 7 = .ok l
      ∧ ∃ a ∈ l, strContains (strUpper a.text) (strUpper "AAPL") = false :=
  ⟨[fromNewsArticle offTopicArticle], by rfl,
    fromNewsArticle offTopicArticle, List.mem_cons_self _ _, by rfl⟩

/-- C4 (amended): the ticker-presence filter holds for `fetch_wsb_posts`
(every output row comes from a post whose upper-cased title or body
contains the upper-cased ticker) and vacuously for
`fetch_alpha_vantage_news` (which returns no items at all), but not for
`fetch_news_api`. -/
theorem claim_C4_amended :
    (∀ (env : WsbEnv) (t : String) (d : Int) (res : List PostEntry),
        fetch_wsb_posts env t d = .ok res → ∀ e ∈ res,
          ∃ p : RawPost,
            (strContains (strUpper p.title) (strUpper t)
              || strContains (strUpper p.selftext) (strUpper t)) = true
            ∧ e = toEntry t p)
  ∧ (∀ (env : AvEnv) (t : String) (d : Int) (res : List Article),
        fetch_alpha_vantage_news env t d = .ok res →
          ∀ a ∈ res, strContains (strUpper a.text) (strUpper t) = true) := by
  constructor
  · intro env t d res h e he
    rcases wsb_provenance env t d res h e he with ⟨p, hm, he2⟩
    simp only [matchesPost, Bool.and_eq_true] at hm
    exact ⟨p, hm.2, he2⟩
  · intro env t d res h a ha
    rw [fetch_av_eq_empty env t d] at h
    injection h with h2
    subst h2
    exact absurd ha (List.not_mem_nil a)

/-- Witness for the amended C4: the first output row of the
duplicate-search environment comes from a post whose title contains AAPL. -/
theorem claim_C4_amended_witness :
    ∃ p : RawPost,
      (strContains (strUpper p.title) (strUpper "AAPL")
        || strContains (strUpper p.selftext) (strUpper "AAPL")) = true
      ∧ toEntry "AAPL" aaplPost = toEntry "AAPL" p :=
  claim_C4_amended.1 dupSearchEnv "AAPL" 7
    [toEntry "AAPL" aaplPost, toEntry "AAPL" aaplPost] (by rfl)
    (toEntry "AAPL" aaplPost) (List.mem_cons_self _ _)

/-- C5 counterexample: `fetch_news_api` keeps an article whose timestamp
lies far outside `[now - days, now]`, so the claim fails for that adapter. -/
theorem claim_C5_counterexample :
    ∃ l, fetch_news_api newsEnvStale "AAPL" 7 = .ok l
      ∧ ∃ a ∈ l, ¬ (newsEnvStale.now - 7 * 86400 ≤ a.timestamp
                    ∧ a.timestamp ≤ newsEnvStale.now) :=
  ⟨[fromNewsArticle staleArticle], by rfl,
    fromNewsArticle staleArticle, List.mem_cons_self _ _, by decide⟩

/-- C5 (amended): the absolute-window filter holds for `fetch_wsb_posts`
(every output row's timestamp lies in `[now - days, now]`) and vacuously
for `fetch_alpha_vantage_news` (which returns no items), but not for
`fetch_news_api`, which passes the window only to the upstream query. -/
theorem claim_C5_amended :
    (∀ (env : WsbEnv) (t : String) (d : Int) (res : List PostEntry),
        fetch_wsb_posts env t d = .ok res → ∀ e ∈ res,
          env.now - d * 86400 ≤ e.timestamp ∧ e.timestamp ≤ env.now)
  ∧ (∀ (env : AvEnv) (t : String) (d : Int) (res : List Article),
        fetch_alpha_vantage_news env t d = .ok res → ∀ a ∈ res,
          env.now - d * 86400 ≤ a.timestamp ∧ a.timestamp ≤ env.now) := by
  constructor
  · intro env t d res h e he
    rcases wsb_provenance env t d res h e he with ⟨p, hm, he2⟩
    simp only [matchesPost, Bool.and_eq_true, decide_eq_true_eq] at hm
    subst he2
    exact ⟨hm.1.1, hm.1.2⟩
  · intro env t d res h a ha
    rw [fetch_av_eq_empty env t d] at h
    injection h with h2
    subst h2
    exact absurd ha (List.not_mem_nil a)

/-- Witness for the amended C5: the first output row of the
duplicate-search environment falls inside the requested window. -/
theorem claim_C5_amended_witness :
    dupSearchEnv.now - 7 * 86400 ≤ (toEntry "AAPL" aaplPost).timestamp
      ∧ (toEntry "AAPL" aaplPost).timestamp ≤ dupSearchEnv.now :=
  claim_C5_amended.1 dupSearchEnv "AAPL" 7
    [toEntry "AAPL" aaplPost, toEntry "AAPL" aaplPost] (by rfl)
    (toEntry "AAPL" aaplPost) (List.mem_cons_self _ _)

/-- C6: no source adapter fetch ever surfaces a raised error: every result
is `.ok`; with a missing credential each fetch returns the empty frame; a
network error or a parse error in `fetch_news_api` also yields the empty
frame. -/
theorem claim_C6 :
    (∀ (env : WsbEnv) (t : String) (d : Int), ∃ r, fetch_wsb_posts env t d = .ok r)
  ∧ (∀ (env : AvEnv) (t : String) (d : Int), ∃ r, fetch_alpha_vantage_news env t d = .ok r)
  ∧ (∀ (env : NewsEnv) (t : String) (d : Int), ∃ r, fetch_news_api env t d = .ok r)
  ∧ (∀ (env : WsbEnv) (t : String) (d : Int), env.redditReady = false →
      fetch_wsb_posts env t d = .ok [])
  ∧ (∀ (env : AvEnv) (t : String) (d : Int), env.apiKey = none →
      fetch_alpha_vantage_news env t d = .ok [])
  ∧ (∀ (env : NewsEnv) (t : String) (d : Int), env.newsApiKey = none →
      fetch_news_api env t d = .ok [])
  ∧ (∀ (k err : String) (now : Int) (t : String) (d : Int),
      newsKeyBad (some k) = false →
      fetch_news_api (newsEnvNetErr k err now) t d = .ok [])
  ∧ (∀ (k err : String) (now : Int) (t : String) (d : Int),
      newsKeyBad (some k) = false →
      fetch_news_api (newsEnvBadJson k err now) t d = .ok []) := by
  refine ⟨fetch_wsb_never_fails, ?_, fetch_news_never_fails, ?_, ?_, ?_, ?_, ?_⟩
  · intro env t d
    exact ⟨[], fetch_av_eq_empty env t d⟩
  · intro env t d h
    unfold fetch_wsb_posts
    rw [h]
    simp
  · intro env t d h
    unfold fetch_alpha_vantage_news
    rw [h]
    rfl
  · intro env t d h
    unfold fetch_news_api
    rw [h]
    rfl
  · intro k err now t d h
    unfold fetch_news_api
    rw [if_neg (by simp [newsEnvNetErr, h])]
    rfl
  · intro k err now t d h
    unfold fetch_news_api
    rw [if_neg (by simp [newsEnvBadJson, h])]
    rfl

/-- Witness for C6: concrete environments with a missing Reddit client,
missing API keys, a failing request and an unparseable body all yield the
empty frame. -/
theorem claim_C6_witness :
    fetch_wsb_posts noRedditEnv "AAPL" 7 = .ok []
  ∧ fetch_alpha_vantage_news avEnvNoKey "AAPL" 7 = .ok []
  ∧ fetch_news_api newsEnvNoKey "AAPL" 7 = .ok []
  ∧ fetch_news_api (newsEnvNetErr "key1" "timeout" 0) "AAPL" 7 = .ok []
  ∧ fetch_news_api (newsEnvBadJson "key1" "bad json" 0) "AAPL" 7 = .ok [] :=
  ⟨claim_C6.2.2.2.1 noRedditEnv "AAPL" 7 rfl,
    claim_C6.2.2.2.2.1 avEnvNoKey "AAPL" 7 rfl,
    claim_C6.2.2.2.2.2.1 newsEnvNoKey "AAPL" 7 rfl,
    claim_C6.2.2.2.2.2.2.1 "key1" "timeout" 0 "AAPL" 7 rfl,
    claim_C6.2.2.2.2.2.2.2 "key1" "bad json" 0 "AAPL" 7 rfl⟩

/-- C10: `fetch_alpha_vantage_news` returns the empty frame on every input
and every environment, because its success path reads `data` before the
assignment and the raised `UnboundLocalError` is caught as an empty result;
consequently all records of `get_institutional_sentiment` come from the
News API fallback. -/
theorem claim_C10 :
    (∀ (env : AvEnv) (t : String) (d : Int),
        fetch_alpha_vantage_news env t d = .ok [])
  ∧ (∀ (env : InstEnv) (t : String) (d : Int) (res : List Article),
        fetch_news_api env.news t d = .ok res →
        get_institutional_sentiment env t d
          = .ok (res.map (fun a => { a with ticker := t }))) := by
  constructor
  · exact fetch_av_eq_empty
  · intro env t d res h
    unfold get_institutional_sentiment
    rw [fetch_av_eq_empty env.av t d]
    simp only [List.isEmpty_nil, if_true]
    rw [h]
    by_cases hres : res.isEmpty = true
    · have hr : res = [] := List.isEmpty_iff.mp hres
      subst hr
      simp
    · simp only [List.isEmpty_nil, if_true, hres, if_false, List.nil_append]
      simp

/-- Witness for C10: with no Alpha Vantage key and one AAPL article from
the News API, the institutional result is exactly that article with the
ticker attached. -/
theorem claim_C10_witness :
    get_institutional_sentiment instEnvExample "AAPL" 7
      = .ok ([fromNewsArticle aaplArticle].map (fun a => { a with ticker := "AAPL" })) :=
  claim_C10.2 instEnvExample "AAPL" 7 [fromNewsArticle aaplArticle] (by rfl)

theorem lookup_map_keys (l : List String) (g : String → String) (k : String) :
    k ∈ l → List.lookup k (l.map (fun c => (c, g c))) = some (g k) := by
  induction l with
  | nil => intro h; exact absurd h (List.not_mem_nil k)
  | cons c cs ih =>
    intro h
    by_cases hk : k = c
    · subst hk
      simp [List.lookup]
    · have hmem : k ∈ cs := by
        rcases List.mem_cons.mp h with h1 | h1
        · exact absurd h1 hk
        · exact h1
      have hbeq : (k == c) = false := by simp [hk]
      simp [List.lookup, hbeq, ih hmem]

theorem rowSource_projRow (common : List String) (r : Row)
    (h : "source" ∈ common) : rowSource (projRow common r) = rowSource r := by
  unfold rowSource projRow
  rw [lookup_map_keys common (fun c => (List.lookup c r).getD "") "source" h]
  simp

/-- C9: merging two non-empty per-source scored frames (each carrying a
`source` column) yields exactly `m + n` rows, the output schema is the set
of columns common to both inputs, and every row keeps its original `source`
tag; merging two empty frames yields the empty frame, not an error. -/
theorem claim_C9 :
    (∀ (wsb inst : DataFrame), wsb.rows ≠ [] → inst.rows ≠ [] →
      "source" ∈ wsb.cols → "source" ∈ inst.cols →
      (mergeFrames wsb inst).rows.length = wsb.rows.length + inst.rows.length
      ∧ (∀ c, c ∈ (mergeFrames wsb inst).cols ↔ c ∈ wsb.cols ∧ c ∈ inst.cols)
      ∧ (mergeFrames wsb inst).rows.map rowSource
          = wsb.rows.map rowSource ++ inst.rows.map rowSource)
  ∧ (∀ (wsb inst : DataFrame), wsb.rows = [] → inst.rows = [] →
      (mergeFrames wsb inst).rows = []) := by
  constructor
  · intro wsb inst h1 h2 hs1 hs2
    have hcond : (!wsb.rows.isEmpty && !inst.rows.isEmpty) = true := by
      simp [List.isEmpty_iff, h1, h2]
    have hsc : "source" ∈ wsb.cols.filter (fun c => c ∈ inst.cols) :=
      List.mem_filter.mpr ⟨hs1, by simp [hs2]⟩
    unfold mergeFrames
    rw [if_pos hcond]
    refine ⟨by simp, ?_, ?_⟩
    · intro c
      simp [List.mem_filter]
    · have hproj : ∀ r : Row, rowSource (projRow
          (wsb.cols.filter (fun c => decide (c ∈ inst.cols))) r) = rowSource r :=
        fun r => rowSource_projRow _ r (by simpa using hsc)
      simp only [List.map_append, List.map_map, Function.comp_def, hproj]
  · intro wsb inst h1 h2
    unfold mergeFrames
    rw [if_neg (by simp [h1])]
    rw [if_neg (by simp [List.isEmpty_iff, h1])]
    rw [if_neg (by simp [List.isEmpty_iff, h2])]

/-- Witness for C9: merging the concrete one-row social and news frames
yields two rows over the common columns with the source tags kept. -/
theorem claim_C9_witness :
    (mergeFrames wsbFrameExample instFrameExample).rows.length
        = wsbFrameExample.rows.length + instFrameExample.rows.length
      ∧ (∀ c, c ∈ (mergeFrames wsbFrameExample instFrameExample).cols
          ↔ c ∈ wsbFrameExample.cols ∧ c ∈ instFrameExample.cols)
      ∧ (mergeFrames wsbFrameExample instFrameExample).rows.map rowSource
          = wsbFrameExample.rows.map rowSource
            ++ instFrameExample.rows.map rowSource :=
  claim_C9.1 wsbFrameExample instFrameExample (by decide) (by decide)
    (by decide) (by decide)

end SentimentAnalysis
